import Mathlib

/-!
Shallow embedding of the HRMS backend (hrms_backend_api) in Lean 4.

UUIDs are modelled as natural numbers, timestamps as integers (seconds),
calendar dates as naturals.  SQL tables become lists of row structures,
`SELECT ... fetchone()` becomes `List.find?`, `UPDATE ... WHERE id = :id`
becomes a map over the list, `INSERT` an append.  HTTP errors raised via
`HTTPException(status_code, detail)` become an `HTTPError` value in `Except`.
-/

namespace HRMS

/-- Model of fastapi.HTTPException: a status code and a human readable detail. -/
structure HTTPError where
  status : Nat
  detail : String
deriving Repr, DecidableEq

/-- Model of src/deps/auth.py Principal (dataclass). -/
structure Principal where
  user_id : Nat
  org_id : Nat
  roles : List String
  permissions : List String
  employee_id : Option Nat
deriving Repr, DecidableEq

/-- SQL COALESCE(:x, col): the first operand when present, the column value otherwise. -/
def coalesce {α : Type} (x y : Option α) : Option α :=
  match x with
  | some v => some v
  | none => y

/-- Shared helper _require_employee of attendance.py / leaves.py:
    400 when the principal has no employee mapping. -/
def _require_employee (principal : Principal) : Except HTTPError Nat :=
  match principal.employee_id with
  | none => Except.error ⟨400, "User has no employee mapping"⟩
  | some e => Except.ok e

/-- One row of the attendance_sessions table (src/models/hrms.py, columns as in
    the SELECT/RETURNING lists of src/api/routers/attendance.py). -/
structure AttendanceRow where
  id : Nat
  org_id : Nat
  employee_id : Nat
  session_date : Nat
  work_mode : String
  clock_in_at : Option Int
  clock_out_at : Option Int
  minutes_worked : Int
  source : String
  notes : Option String
  created_at : Int
  updated_at : Int
deriving Repr, DecidableEq

/-- Body of POST /attendance/clock-in (AttendanceClockInRequest). -/
structure AttendanceClockInRequest where
  work_mode : String
  source : String
  notes : Option String
deriving Repr, DecidableEq

/-- Body of POST /attendance/clock-out (AttendanceClockOutRequest). -/
structure AttendanceClockOutRequest where
  notes : Option String
deriving Repr, DecidableEq

/-- The fetchone() of the SELECT in clock_in / clock_out: first row of
    attendance_sessions with the given org, employee and session date. -/
def find_session (db : List AttendanceRow) (orgId empId d : Nat) : Option AttendanceRow :=
  db.find? (fun r => r.org_id == orgId && r.employee_id == empId && r.session_date == d)

/-- SQL UPDATE attendance_sessions SET ... WHERE id = :id — applies the row
    update to every row whose id matches. -/
def update_where_id (db : List AttendanceRow) (i : Nat)
    (f : AttendanceRow → AttendanceRow) : List AttendanceRow :=
  db.map (fun r => if r.id == i then f r else r)

/-- The row update performed by the UPDATE branch of clock_in. -/
def clock_in_update (payload : AttendanceClockInRequest) (now : Int)
    (r : AttendanceRow) : AttendanceRow :=
  { r with
    clock_in_at := some now
    work_mode := payload.work_mode
    source := payload.source
    notes := coalesce payload.notes r.notes
    updated_at := now }

/-- The fresh row the INSERT branch of clock_in creates (VALUES list of the
    INSERT: clock_out_at absent hence null, minutes_worked 0). -/
def clock_in_new_row (principal : Principal) (payload : AttendanceClockInRequest)
    (today : Nat) (now : Int) (newId : Nat) (employee_id : Nat) : AttendanceRow :=
  { id := newId
    org_id := principal.org_id
    employee_id := employee_id
    session_date := today
    work_mode := payload.work_mode
    clock_in_at := some now
    clock_out_at := none
    minutes_worked := 0
    source := payload.source
    notes := payload.notes
    created_at := now
    updated_at := now }

/-- POST /attendance/clock-in (src/api/routers/attendance.py, clock_in).
    today / now / newId stand for date.today(), datetime.now(utc) and
    gen_random_uuid().  Returns the new table state and the returned row. -/
def clock_in (principal : Principal) (payload : AttendanceClockInRequest)
    (db : List AttendanceRow) (today : Nat) (now : Int) (newId : Nat) :
    Except HTTPError (List AttendanceRow × AttendanceRow) := do
  let employee_id ← _require_employee principal
  match find_session db principal.org_id employee_id today with
  | some existing =>
    if existing.clock_in_at.isSome then
      Except.error ⟨400, "Already clocked in"⟩
    else
      Except.ok (update_where_id db existing.id (clock_in_update payload now),
        clock_in_update payload now existing)
  | none =>
    let row := clock_in_new_row principal payload today now newId employee_id
    Except.ok (db ++ [row], row)

/-- minutes = int(max(0, (now - clock_in_at).total_seconds() // 60)):
    floor division of the elapsed seconds by 60, clamped below at 0. -/
def minutes_between (t0 t1 : Int) : Int :=
  max 0 ((t1 - t0).fdiv 60)

/-- The row update performed by the UPDATE of clock_out. -/
def clock_out_update (payload : AttendanceClockOutRequest) (now minutes : Int)
    (r : AttendanceRow) : AttendanceRow :=
  { r with
    clock_out_at := some now
    minutes_worked := minutes
    notes := coalesce payload.notes r.notes
    updated_at := now }

/-- POST /attendance/clock-out (src/api/routers/attendance.py, clock_out). -/
def clock_out (principal : Principal) (payload : AttendanceClockOutRequest)
    (db : List AttendanceRow) (today : Nat) (now : Int) :
    Except HTTPError (List AttendanceRow × AttendanceRow) := do
  let employee_id ← _require_employee principal
  match find_session db principal.org_id employee_id today with
  | none => Except.error ⟨400, "Not clocked in"⟩
  | some existing =>
    match existing.clock_in_at with
    | none => Except.error ⟨400, "Not clocked in"⟩
    | some clock_in_at =>
      if existing.clock_out_at.isSome then
        Except.error ⟨400, "Already clocked out"⟩
      else
        let minutes : Int := minutes_between clock_in_at now
        Except.ok (update_where_id db existing.id (clock_out_update payload now minutes),
          clock_out_update payload now minutes existing)

/-! The in-memory demo variant (app/main.py).  Sessions live in a plain list
    `_attendance_sessions`, newest first; ids are `att_{len+1}`, modelled by
    the numeric part. -/

/-- Demo AttendanceSessionOut (app/main.py): clock_in_at is a non-null ISO
    string there, modelled as a timestamp. -/
structure DemoSession where
  id : Nat
  org_id : Nat
  employee_id : Nat
  session_date : Nat
  work_mode : String
  clock_in_at : Int
  clock_out_at : Option Int
  minutes_worked : Int
  source : String
  notes : Option String
  created_at : Int
  updated_at : Int
deriving Repr, DecidableEq

/-- Demo ClockInIn payload (work_mode, source with default, optional notes). -/
structure ClockInIn where
  work_mode : String
  source : String
  notes : Option String
deriving Repr, DecidableEq

/-- Demo ClockOutIn payload. -/
structure ClockOutIn where
  notes : Option String
deriving Repr, DecidableEq

/-- Model of _find_open_session (app/main.py): the first session of the employee with
    clock_out_at still null (the source returns its index; index and element
    are used together, so the element is returned here). -/
def _find_open_session (sessions : List DemoSession) (empId : Nat) : Option DemoSession :=
  sessions.find? (fun s => s.employee_id == empId && s.clock_out_at == none)

/-- Demo clock_in (app/main.py, clockIn): if an open session exists it is
    returned unchanged (idempotency); else a new open session is inserted at
    the head of the list. -/
def demo_clock_in (sessions : List DemoSession) (orgId empId : Nat)
    (payload : ClockInIn) (today : Nat) (now : Int) :
    List DemoSession × DemoSession :=
  match _find_open_session sessions empId with
  | some s => (sessions, s)
  | none =>
    let session : DemoSession :=
      { id := sessions.length + 1
        org_id := orgId
        employee_id := empId
        session_date := today
        work_mode := payload.work_mode
        clock_in_at := now
        clock_out_at := none
        minutes_worked := 0
        source := if payload.source.isEmpty then "web" else payload.source
        notes := payload.notes
        created_at := now
        updated_at := now }
    (session :: sessions, session)

/-- Replace the first element satisfying p (the source writes back at the
    found index). -/
def replace_first {α : Type} (p : α → Bool) (f : α → α) : List α → List α
  | [] => []
  | x :: xs => if p x then f x :: xs else x :: replace_first p f xs

/-- Demo clock_out (app/main.py, clockOut): closes the first open session of
    the employee; minutes from the stored timestamps, clamped at 0. -/
def demo_clock_out (sessions : List DemoSession) (empId : Nat)
    (payload : ClockOutIn) (now : Int) :
    Except HTTPError (List DemoSession × DemoSession) :=
  match _find_open_session sessions empId with
  | none => Except.error ⟨400, "No open attendance session"⟩
  | some existing =>
    let minutes : Int := minutes_between existing.clock_in_at now
    let updated : DemoSession :=
      { existing with
        clock_out_at := some now
        minutes_worked := minutes
        notes := coalesce payload.notes existing.notes
        updated_at := now }
    Except.ok
      (replace_first (fun s => s.employee_id == empId && s.clock_out_at == none)
        (fun _ => updated) sessions, updated)

/-! Leave model (src/api/routers/leaves.py). -/

/-- One row of leave_types (only the columns the handlers read). -/
structure LeaveTypeRow where
  id : Nat
  org_id : Nat
  requires_approval : Bool
deriving Repr, DecidableEq

/-- One row of leave_requests. -/
structure LeaveRequestRow where
  id : Nat
  org_id : Nat
  employee_id : Nat
  leave_type_id : Nat
  start_date : Nat
  end_date : Nat
  unit : String
  quantity : Int
  reason : Option String
  status : String
  requested_at : Int
  decided_at : Option Int
  created_at : Int
  updated_at : Int
deriving Repr, DecidableEq

/-- One row of leave_approvals (append-only decision record). -/
structure LeaveApprovalRow where
  id : Nat
  org_id : Nat
  leave_request_id : Nat
  approver_employee_id : Nat
  decision : String
  comment : Option String
  decided_at : Int
deriving Repr, DecidableEq

/-- The leave tables touched by the leave handlers. -/
structure LeaveStore where
  leave_types : List LeaveTypeRow
  leave_requests : List LeaveRequestRow
  leave_approvals : List LeaveApprovalRow
deriving Repr, DecidableEq

/-- Body of POST /leaves/requests (LeaveApplyRequest). -/
structure LeaveApplyRequest where
  leave_type_id : Nat
  start_date : Nat
  end_date : Nat
  unit : String
  quantity : Int
  reason : Option String
deriving Repr, DecidableEq

/-- Body of POST /leaves/requests/{id}/decision (LeaveDecisionRequest). -/
structure LeaveDecisionRequest where
  decision : String
  comment : Option String
deriving Repr, DecidableEq

/-- Storage accesses the apply_leave handler can perform, in program order
    (used to express that a validation failure happens before any storage
    read or write). -/
inductive StorageOp where
  | readLeaveType : StorageOp
  | genUuid : StorageOp
  | insertLeaveRequest : StorageOp
  | insertAuditLog : StorageOp
deriving Repr, DecidableEq

/-- POST /leaves/requests (apply_leave).  Returns the response, the leave
    store after the call, and the ordered list of storage operations the
    handler performed. -/
def apply_leave (principal : Principal) (payload : LeaveApplyRequest)
    (store : LeaveStore) (now : Int) (newId : Nat) :
    Except HTTPError LeaveRequestRow × LeaveStore × List StorageOp :=
  match _require_employee principal with
  | Except.error e => (Except.error e, store, [])
  | Except.ok employee_id =>
    if payload.end_date < payload.start_date then
      (Except.error ⟨400, "Invalid date range"⟩, store, [])
    else
      match store.leave_types.find?
          (fun t => t.org_id == principal.org_id && t.id == payload.leave_type_id) with
      | none => (Except.error ⟨400, "Invalid leave type"⟩, store, [StorageOp.readLeaveType])
      | some leave_type =>
        let status_value := if leave_type.requires_approval then "pending" else "approved"
        let row : LeaveRequestRow :=
          { id := newId
            org_id := principal.org_id
            employee_id := employee_id
            leave_type_id := payload.leave_type_id
            start_date := payload.start_date
            end_date := payload.end_date
            unit := payload.unit
            quantity := payload.quantity
            reason := payload.reason
            status := status_value
            requested_at := now
            decided_at := if status_value == "approved" then some now else none
            created_at := now
            updated_at := now }
        (Except.ok row,
          { store with leave_requests := store.leave_requests ++ [row] },
          [StorageOp.readLeaveType, StorageOp.genUuid, StorageOp.insertLeaveRequest,
            StorageOp.insertAuditLog])

/-- The fetchone() of decide_leave: first leave request with the org and id. -/
def find_leave_request (store : LeaveStore) (orgId lrId : Nat) : Option LeaveRequestRow :=
  store.leave_requests.find? (fun r => r.org_id == orgId && r.id == lrId)

/-- The UPDATE applied to the decided leave request row. -/
def decide_update (decision : String) (now : Int) (r : LeaveRequestRow) : LeaveRequestRow :=
  { r with status := decision, decided_at := some now, updated_at := now }

/-- The LeaveApproval row the decision INSERT appends. -/
def decide_approval_row (principal : Principal) (leave_request_id : Nat)
    (payload : LeaveDecisionRequest) (now : Int) (approvalId approver_id : Nat) :
    LeaveApprovalRow :=
  { id := approvalId
    org_id := principal.org_id
    leave_request_id := leave_request_id
    approver_employee_id := approver_id
    decision := payload.decision
    comment := payload.comment
    decided_at := now }

/-- POST /leaves/requests/{id}/decision (decide_leave).  The UPDATE of the
    request and the INSERT of the approval happen in the same commit; the
    model returns both in one atomic new store. -/
def decide_leave (principal : Principal) (leave_request_id : Nat)
    (payload : LeaveDecisionRequest) (store : LeaveStore) (now : Int)
    (approvalId : Nat) : Except HTTPError (LeaveStore × LeaveRequestRow) :=
  if payload.decision != "approved" && payload.decision != "rejected" then
    Except.error ⟨400, "Invalid decision"⟩
  else
    match find_leave_request store principal.org_id leave_request_id with
    | none => Except.error ⟨404, "Leave request not found"⟩
    | some lr =>
      if lr.status != "pending" then
        Except.error ⟨400, "Leave request is not pending"⟩
      else
        match principal.employee_id with
        | none => Except.error ⟨400, "Approver must be mapped to an employee"⟩
        | some approver_id =>
          let requests2 := store.leave_requests.map
            (fun r => if r.id == leave_request_id then decide_update payload.decision now r else r)
          let approval := decide_approval_row principal leave_request_id payload now
            approvalId approver_id
          Except.ok
            ({ store with
                leave_requests := requests2
                leave_approvals := store.leave_approvals ++ [approval] },
              decide_update payload.decision now lr)

/-! Authentication (src/api/routers/auth.py, src/deps/auth.py). -/

/-- One row of organizations (columns the login handler reads). -/
structure OrgRow where
  id : Nat
  slug : String
deriving Repr, DecidableEq

/-- One row of users (columns the auth handlers read and write). -/
structure UserRow where
  id : Nat
  org_id : Nat
  email : String
  password_hash : String
  is_active : Bool
  last_login_at : Option Int
  updated_at : Int
deriving Repr, DecidableEq

/-- Body of POST /auth/login (LoginRequest). -/
structure LoginRequest where
  org_slug : String
  email : String
  password : String
deriving Repr, DecidableEq

/-- Response of POST /auth/login (TokenPair). -/
structure TokenPair where
  access_token : String
  refresh_token : String
deriving Repr, DecidableEq

/-- POST /auth/login (auth.py, login).  External collaborators are passed in:
    verify is bcrypt verify_password, makeAccess / makeRefresh are
    create_access_token / create_refresh_token applied to (user id, org id).
    Returns the users table after the last_login_at update, and the pair. -/
def login (verify : String → String → Bool)
    (makeAccess makeRefresh : Nat → Nat → String)
    (orgs : List OrgRow) (users : List UserRow)
    (payload : LoginRequest) (now : Int) :
    Except HTTPError (List UserRow × TokenPair) :=
  match orgs.find? (fun o => o.slug == payload.org_slug) with
  | none => Except.error ⟨400, "Invalid org"⟩
  | some org =>
    match users.find?
        (fun u => u.org_id == org.id && u.email.toLower == payload.email.toLower) with
    | none => Except.error ⟨401, "Invalid credentials"⟩
    | some user =>
      if !user.is_active then
        Except.error ⟨401, "Invalid credentials"⟩
      else if !(verify payload.password user.password_hash) then
        Except.error ⟨401, "Invalid credentials"⟩
      else
        let users2 := users.map (fun u =>
          if u.id == user.id then { u with last_login_at := some now, updated_at := now } else u)
        Except.ok (users2,
          ⟨makeAccess user.id org.id, makeRefresh user.id org.id⟩)

/-- Decoded JWT claims consulted by the principal resolver.  sub and org_id
    are UUID strings in the source; absent keys (payload.get) are none. -/
structure TokenClaims where
  type : Option String
  sub : Option Nat
  org_id : Option Nat
deriving Repr, DecidableEq

/-- users row as read by db.get(User, ...) in the principal resolver. -/
structure AuthUserRow where
  id : Nat
  is_active : Bool
deriving Repr, DecidableEq

/-- user_roles join row. -/
structure UserRoleRow where
  user_id : Nat
  role_id : Nat
deriving Repr, DecidableEq

/-- roles row. -/
structure RoleRow where
  id : Nat
  name : String
deriving Repr, DecidableEq

/-- role_permissions join row. -/
structure RolePermissionRow where
  role_id : Nat
  permission_id : Nat
deriving Repr, DecidableEq

/-- permissions row. -/
structure PermissionRow where
  id : Nat
  key : String
deriving Repr, DecidableEq

/-- employees row as read by _load_employee_id. -/
structure EmployeeLinkRow where
  id : Nat
  user_id : Option Nat
deriving Repr, DecidableEq

/-- The tables the principal resolver reads. -/
structure AuthDb where
  users : List AuthUserRow
  user_roles : List UserRoleRow
  roles : List RoleRow
  role_permissions : List RolePermissionRow
  permissions : List PermissionRow
  employees : List EmployeeLinkRow
deriving Repr, DecidableEq

/-- Model of _load_roles_and_permissions, roles part: SELECT r.name FROM user_roles ur
    JOIN roles r ON r.id = ur.role_id WHERE ur.user_id = :user_id. -/
def _load_roles (db : AuthDb) (uid : Nat) : List String :=
  (db.user_roles.filter (fun ur => ur.user_id == uid)).filterMap
    (fun ur => (db.roles.find? (fun r => r.id == ur.role_id)).map (fun r => r.name))

/-- Model of _load_roles_and_permissions, permissions part: DISTINCT p.key over the
    user_roles → role_permissions → permissions joins. -/
def _load_permissions (db : AuthDb) (uid : Nat) : List String :=
  (((db.user_roles.filter (fun ur => ur.user_id == uid)).flatMap
      (fun ur => db.role_permissions.filter (fun rp => rp.role_id == ur.role_id))).filterMap
    (fun rp => (db.permissions.find? (fun p => p.id == rp.permission_id)).map
      (fun p => p.key))).dedup

/-- Model of _load_employee_id: SELECT id FROM employees WHERE user_id = :user_id LIMIT 1. -/
def _load_employee_id (db : AuthDb) (uid : Nat) : Option Nat :=
  (db.employees.find? (fun e => e.user_id == some uid)).map (fun e => e.id)

/-- get_current_principal (src/deps/auth.py).  The decode_token call is a
    collaborator; its outcome (JWTError or a claims map) is the first
    argument. -/
def get_current_principal (decoded : Except Unit TokenClaims) (db : AuthDb) :
    Except HTTPError Principal :=
  match decoded with
  | Except.error _ => Except.error ⟨401, "Invalid token"⟩
  | Except.ok payload =>
    if payload.type != some "access" then
      Except.error ⟨401, "Invalid access token"⟩
    else
      match payload.sub, payload.org_id with
      | some sub, some org_id =>
        match db.users.find? (fun u => u.id == sub) with
        | none => Except.error ⟨401, "User inactive or not found"⟩
        | some user =>
          if !user.is_active then
            Except.error ⟨401, "User inactive or not found"⟩
          else
            Except.ok
              { user_id := sub
                org_id := org_id
                roles := _load_roles db sub
                permissions := _load_permissions db sub
                employee_id := _load_employee_id db sub }
      | _, _ => Except.error ⟨401, "Malformed token"⟩

/-- require_permissions (src/deps/auth.py): the check the dependency factory
    returns, applied to the already-resolved principal. -/
def require_permissions (required : List String) (principal : Principal) :
    Except HTTPError Principal :=
  let missing := required.filter (fun p => !(principal.permissions.contains p))
  if missing != [] then
    Except.error ⟨403, "Missing permissions: " ++ String.intercalate ", " missing⟩
  else
    Except.ok principal

/-! Org-scoped list endpoints.  ORDER BY is a stable sort on the key,
    LIMIT / OFFSET are take / drop after sorting. -/

/-- Insert one element into a list sorted by le (helper of sort_by). -/
def insert_by {α : Type} (le : α → α → Bool) (x : α) : List α → List α
  | [] => [x]
  | y :: ys => if le x y then x :: y :: ys else y :: insert_by le x ys

/-- Stable insertion sort, the model of SQL ORDER BY. -/
def sort_by {α : Type} (le : α → α → Bool) : List α → List α
  | [] => []
  | x :: xs => insert_by le x (sort_by le xs)

/-- One row of employees (columns of the SELECT in employees.py). -/
structure EmployeeRow where
  id : Nat
  org_id : Nat
  user_id : Option Nat
  employee_code : String
  first_name : String
  last_name : String
  work_email : String
  phone : Option String
  job_title : Option String
  department : Option String
  location : Option String
  employment_type : String
  status : String
  date_of_joining : Option Nat
  manager_employee_id : Option Nat
  created_at : Int
  updated_at : Int
deriving Repr, DecidableEq

/-- One row of audit_logs (columns of the SELECT in audit.py). -/
structure AuditLogRow where
  id : Nat
  org_id : Nat
  actor_user_id : Option Nat
  actor_employee_id : Option Nat
  action : String
  entity_type : String
  entity_id : Option Nat
  ip : Option String
  user_agent : Option String
  metadata : List (String × String)
  created_at : Int
deriving Repr, DecidableEq

/-- One row of payroll_cycles (columns of the SELECT in payroll.py). -/
structure PayrollCycleRow where
  id : Nat
  org_id : Nat
  code : String
  start_date : Nat
  end_date : Nat
  status : String
  created_at : Int
  updated_at : Int
deriving Repr, DecidableEq

/-- GET /employees (employees.py, list_employees): WHERE org_id = :org_id
    ORDER BY created_at DESC LIMIT :limit OFFSET :offset. -/
def list_employees (principal : Principal) (limit offset : Nat)
    (employees : List EmployeeRow) : List EmployeeRow :=
  (((sort_by (fun a b => b.created_at ≤ a.created_at)
      (employees.filter (fun r => r.org_id == principal.org_id))).drop offset).take limit)

/-- GET /attendance/sessions (attendance.py, list_sessions): date range check,
    org filter, optional employee filter, newest date first, LIMIT 500. -/
def list_sessions (principal : Principal) (start_date end_date : Nat)
    (employee_id : Option Nat) (db : List AttendanceRow) :
    Except HTTPError (List AttendanceRow) :=
  if end_date < start_date then
    Except.error ⟨400, "Invalid date range"⟩
  else
    Except.ok
      ((sort_by (fun a b => b.session_date ≤ a.session_date)
        (db.filter (fun r =>
          r.org_id == principal.org_id &&
          start_date ≤ r.session_date && r.session_date ≤ end_date &&
          (match employee_id with
           | none => true
           | some e => r.employee_id == e)))).take 500)

/-- GET /leaves/requests (leaves.py, list_leave_requests): the status clause is
    only added when status_filter is truthy (non-null, non-empty), the
    employee clause when employee_id is present. -/
def list_leave_requests (principal : Principal) (status_filter : Option String)
    (employee_id : Option Nat) (store : LeaveStore) : List LeaveRequestRow :=
  (sort_by (fun a b => b.requested_at ≤ a.requested_at)
    (store.leave_requests.filter (fun r =>
      r.org_id == principal.org_id &&
      (match status_filter with
       | none => true
       | some s => if s.isEmpty then true else r.status == s) &&
      (match employee_id with
       | none => true
       | some e => r.employee_id == e)))).take 500

/-- GET /audit/logs (audit.py, list_audit_logs): WHERE org_id = :org_id
    ORDER BY created_at DESC LIMIT :limit. -/
def list_audit_logs (principal : Principal) (limit : Nat)
    (logs : List AuditLogRow) : List AuditLogRow :=
  (sort_by (fun a b => b.created_at ≤ a.created_at)
    (logs.filter (fun r => r.org_id == principal.org_id))).take limit

/-- GET /payroll/cycles (payroll.py, list_payroll_cycles): WHERE org_id =
    :org_id ORDER BY start_date DESC LIMIT 200. -/
def list_payroll_cycles (principal : Principal)
    (cycles : List PayrollCycleRow) : List PayrollCycleRow :=
  (sort_by (fun a b => b.start_date ≤ a.start_date)
    (cycles.filter (fun r => r.org_id == principal.org_id))).take 200

/-! Derived notions used by the invariants. -/

/-- Rows of attendance_sessions for one (org, employee, date) key. -/
def matches_key (o e d : Nat) (r : AttendanceRow) : Bool :=
  r.org_id == o && r.employee_id == e && r.session_date == d

/-- Open session: non-null clock_in_at and null clock_out_at. -/
def is_open (r : AttendanceRow) : Bool :=
  r.clock_in_at.isSome && r.clock_out_at == none

/-- Number of attendance rows for (org, employee, date). -/
def row_count (db : List AttendanceRow) (o e d : Nat) : Nat :=
  (db.filter (matches_key o e d)).length

/-- Number of open attendance rows for (org, employee, date). -/
def open_count (db : List AttendanceRow) (o e d : Nat) : Nat :=
  ((db.filter (matches_key o e d)).filter is_open).length

/-- Number of open demo sessions of one employee (any date). -/
def demo_open_count (sessions : List DemoSession) (e : Nat) : Nat :=
  (sessions.filter (fun s => s.employee_id == e && s.clock_out_at == none)).length

/-! Helper lemmas. -/

theorem mem_insert_by {α : Type} (le : α → α → Bool) (x a : α) (l : List α) :
    a ∈ insert_by le x l ↔ a = x ∨ a ∈ l := by
  induction l with
  | nil => simp [insert_by]
  | cons y ys ih =>
    cases h : le x y <;> (simp [insert_by, h, ih]; try tauto)

theorem mem_sort_by {α : Type} (le : α → α → Bool) (a : α) (l : List α) :
    a ∈ sort_by le l ↔ a ∈ l := by
  induction l with
  | nil => simp [sort_by]
  | cons x xs ih => simp [sort_by, mem_insert_by, ih]

theorem pred_of_mem_sorted_take {α : Type} (p : α → Bool) (le : α → α → Bool)
    (l : List α) (n : Nat) (a : α)
    (h : a ∈ (sort_by le (l.filter p)).take n) : p a = true := by
  have h1 := List.mem_of_mem_take h
  have h2 := (mem_sort_by le a (l.filter p)).mp h1
  exact (List.mem_filter.mp h2).2

theorem pred_of_mem_sorted_drop_take {α : Type} (p : α → Bool) (le : α → α → Bool)
    (l : List α) (n m : Nat) (a : α)
    (h : a ∈ ((sort_by le (l.filter p)).drop m).take n) : p a = true := by
  have h1 := List.mem_of_mem_take h
  have h2 := List.mem_of_mem_drop h1
  have h3 := (mem_sort_by le a (l.filter p)).mp h2
  exact (List.mem_filter.mp h3).2

theorem open_count_le_row_count (db : List AttendanceRow) (o e d : Nat) :
    open_count db o e d ≤ row_count db o e d :=
  List.length_filter_le _ _

theorem length_filter_map_of_pred_eq {α : Type} (g : α → α) (p : α → Bool)
    (h : ∀ r, p (g r) = p r) (l : List α) :
    ((l.map g).filter p).length = (l.filter p).length := by
  induction l with
  | nil => rfl
  | cons x xs ih =>
    simp only [List.map_cons, List.filter_cons, h x]
    cases hx : p x <;> simp [hx, ih]

theorem row_count_update_where_id (db : List AttendanceRow) (i : Nat)
    (f : AttendanceRow → AttendanceRow) (o e d : Nat)
    (hf : ∀ r, matches_key o e d (f r) = matches_key o e d r) :
    row_count (update_where_id db i f) o e d = row_count db o e d := by
  unfold row_count update_where_id
  apply length_filter_map_of_pred_eq
  intro r
  cases hid : (r.id == i) <;> simp [hid, hf r]

theorem row_count_append_single (db : List AttendanceRow) (row : AttendanceRow)
    (o e d : Nat) :
    row_count (db ++ [row]) o e d =
      row_count db o e d + (if matches_key o e d row then 1 else 0) := by
  unfold row_count
  rw [List.filter_append]
  cases h : matches_key o e d row <;> simp [h]

theorem row_count_eq_zero_of_find_none (db : List AttendanceRow) (o e d : Nat)
    (h : find_session db o e d = none) : row_count db o e d = 0 := by
  unfold find_session at h
  have hnil : db.filter (matches_key o e d) = [] := by
    rw [List.filter_eq_nil_iff]
    intro a ha
    have := List.find?_eq_none.mp h a ha
    simpa [matches_key] using this
  simp [row_count, hnil]

theorem clock_in_update_matches (payload : AttendanceClockInRequest) (now : Int)
    (o e d : Nat) (r : AttendanceRow) :
    matches_key o e d (clock_in_update payload now r) = matches_key o e d r := rfl

theorem clock_out_update_matches (payload : AttendanceClockOutRequest)
    (now minutes : Int) (o e d : Nat) (r : AttendanceRow) :
    matches_key o e d (clock_out_update payload now minutes r) = matches_key o e d r := rfl

theorem minutes_between_of_le (t0 t1 : Int) (h : t0 ≤ t1) :
    minutes_between t0 t1 = (((t1 - t0).toNat / 60 : Nat) : Int) := by
  unfold minutes_between
  rw [Int.fdiv_eq_ediv _ (by norm_num : (0:Int) ≤ 60)]
  rw [max_eq_right (Int.ediv_nonneg (by omega) (by norm_num))]
  omega

theorem minutes_between_nonneg (t0 t1 : Int) : 0 ≤ minutes_between t0 t1 :=
  le_max_left _ _

theorem demo_open_count_zero_of_none (sessions : List DemoSession) (e : Nat)
    (h : _find_open_session sessions e = none) : demo_open_count sessions e = 0 := by
  unfold _find_open_session at h
  have hnil : sessions.filter (fun s => s.employee_id == e && s.clock_out_at == none) = [] := by
    rw [List.filter_eq_nil_iff]
    intro a ha
    exact List.find?_eq_none.mp h a ha
  simp [demo_open_count, hnil]

/-! Claim theorems. -/

/-- C1 (amended): a clock-in against an existing session row for (employee,
    today) with non-null clock_in_at fails BadRequest "Already clocked in"
    whether the session is open or already clocked out; a row with null
    clock_in_at is updated in place (clock_in_at set to now, same id); with
    no row at all a fresh open row is inserted. -/
theorem clock_in_amended
    (p : Principal) (payload : AttendanceClockInRequest) (db : List AttendanceRow)
    (today : Nat) (now : Int) (newId : Nat) (emp : Nat)
    (hemp : p.employee_id = some emp) :
    (∀ ex, find_session db p.org_id emp today = some ex → ex.clock_in_at.isSome →
       clock_in p payload db today now newId = Except.error ⟨400, "Already clocked in"⟩) ∧
    (∀ ex, find_session db p.org_id emp today = some ex → ex.clock_in_at = none →
       clock_in p payload db today now newId =
         Except.ok (update_where_id db ex.id (clock_in_update payload now),
           clock_in_update payload now ex) ∧
       (clock_in_update payload now ex).id = ex.id ∧
       (clock_in_update payload now ex).clock_in_at = some now) ∧
    (find_session db p.org_id emp today = none →
       ∃ row, clock_in p payload db today now newId = Except.ok (db ++ [row], row) ∧
         row.id = newId ∧ row.org_id = p.org_id ∧ row.employee_id = emp ∧
         row.session_date = today ∧ row.clock_in_at = some now ∧
         row.clock_out_at = none) := by
  refine ⟨?_, ?_, ?_⟩
  · intro ex hfind hin
    simp [clock_in, _require_employee, hemp, hfind, hin, Except.bind, Bind.bind]
  · intro ex hfind hin
    have hnotsome : ex.clock_in_at.isSome = false := by simp [hin]
    refine ⟨?_, rfl, rfl⟩
    simp [clock_in, _require_employee, hemp, hfind, hnotsome, Except.bind, Bind.bind]
  · intro hfind
    refine ⟨clock_in_new_row p payload today now newId emp, ?_, rfl, rfl, rfl, rfl, rfl, rfl⟩
    simp [clock_in, clock_in_new_row, _require_employee, hemp, hfind, Except.bind, Bind.bind]

/-- Fixture for C1: a session of employee 2 in org 1 on date 5 that is
    already clocked out (clock_in_at and clock_out_at both set). -/
def c1_row : AttendanceRow :=
  { id := 7, org_id := 1, employee_id := 2, session_date := 5, work_mode := "remote",
    clock_in_at := some 100, clock_out_at := some 200, minutes_worked := 1,
    source := "web", notes := none, created_at := 100, updated_at := 200 }

/-- Fixture: the authenticated employee 2 of org 1. -/
def c1_principal : Principal :=
  { user_id := 10, org_id := 1, roles := [], permissions := [],
    employee_id := some 2 }

/-- Fixture: a plain clock-in payload. -/
def c1_payload : AttendanceClockInRequest :=
  { work_mode := "remote", source := "web", notes := none }

/-- C1 counterexample: today's session of the employee exists and is closed
    (prior clock-out recorded), yet clock-in fails BadRequest "Already
    clocked in" instead of reopening the row — the code tests clock_in_at,
    not clock_out_at. -/
theorem clock_in_closed_counterexample :
    find_session [c1_row] 1 2 5 = some c1_row ∧
    c1_row.clock_out_at = some 200 ∧
    clock_in c1_principal c1_payload [c1_row] 5 300 9 =
      Except.error ⟨400, "Already clocked in"⟩ :=
  ⟨rfl, rfl, rfl⟩

/-- C1 witness: the amended theorem applied to the closed-session fixture. -/
theorem clock_in_amended_witness :
    clock_in c1_principal c1_payload [c1_row] 5 300 9 =
      Except.error ⟨400, "Already clocked in"⟩ :=
  (clock_in_amended c1_principal c1_payload [c1_row] 5 300 9 2 rfl).1 c1_row rfl rfl

/-- C2: under the invariant that each (org, employee, date) has at most one
    attendance row, a clock-in in the database variant never results in two
    open rows for any employee and date (openness bounded by the row count,
    which the operation preserves or establishes at one); in the demo
    variant a clock-in preserves "at most one open session per employee". -/
theorem clock_in_at_most_one_open :
    (∀ (p : Principal) (payload : AttendanceClockInRequest) (db : List AttendanceRow)
       (today : Nat) (now : Int) (newId : Nat) (db2 : List AttendanceRow) (row : AttendanceRow),
       (∀ o e d, row_count db o e d ≤ 1) →
       clock_in p payload db today now newId = Except.ok (db2, row) →
       (∀ o e d, row_count db2 o e d ≤ 1) ∧ (∀ o e d, open_count db2 o e d ≤ 1)) ∧
    (∀ (sessions : List DemoSession) (orgId empId : Nat) (payload : ClockInIn)
       (today : Nat) (now : Int),
       (∀ e, demo_open_count sessions e ≤ 1) →
       (∀ e, demo_open_count (demo_clock_in sessions orgId empId payload today now).1 e ≤ 1)) := by
  constructor
  · intro p payload db today now newId db2 row hInv hok
    suffices main : ∀ o e d, row_count db2 o e d ≤ 1 by
      exact ⟨main, fun o e d =>
        le_trans (open_count_le_row_count db2 o e d) (main o e d)⟩
    cases hemp : p.employee_id with
    | none => simp [clock_in, _require_employee, hemp, Except.bind, Bind.bind] at hok
    | some emp =>
      cases hfind : find_session db p.org_id emp today with
      | some ex =>
        cases hin : ex.clock_in_at.isSome with
        | true => simp [clock_in, _require_employee, hemp, hfind, hin, Except.bind, Bind.bind] at hok
        | false =>
          simp only [clock_in, _require_employee, hemp, hfind, hin, Except.bind, Bind.bind,
            Bool.false_eq_true, if_false, Except.ok.injEq, Prod.mk.injEq] at hok
          intro o e d
          rw [← hok.1, row_count_update_where_id db ex.id _ o e d
            (fun r => clock_in_update_matches payload now o e d r)]
          exact hInv o e d
      | none =>
        simp only [clock_in, _require_employee, hemp, hfind, Except.bind, Bind.bind,
          Except.ok.injEq, Prod.mk.injEq] at hok
        intro o e d
        rw [← hok.1, row_count_append_single]
        by_cases hm : matches_key o e d (clock_in_new_row p payload today now newId emp)
        · have hkey : (p.org_id = o ∧ emp = e) ∧ today = d := by
            simpa [matches_key, clock_in_new_row] using hm
          obtain ⟨⟨h1, h2⟩, h3⟩ := hkey
          subst h1; subst h2; subst h3
          rw [row_count_eq_zero_of_find_none db p.org_id emp today hfind]
          simp [hm]
        · simp only [hm, if_false]
          exact le_trans (Nat.le_of_eq (Nat.add_zero _)) (hInv o e d)
  · intro sessions orgId empId payload today now hInv e
    cases hfind : _find_open_session sessions empId with
    | some s => simpa [demo_clock_in, hfind] using hInv e
    | none =>
      simp only [demo_clock_in, hfind]
      unfold demo_open_count
      rw [List.filter_cons]
      cases hcase : (empId == e) with
      | true =>
        have he : empId = e := beq_iff_eq.mp hcase
        subst he
        have hz := demo_open_count_zero_of_none sessions empId hfind
        unfold demo_open_count at hz
        simp [hz]
      | false =>
        have hne : ¬ (empId == e) = true := by simp [hcase]
        simp only [hcase]
        simpa [demo_open_count, hcase] using hInv e

/-- Fixture: the open session produced by a first clock-in on an empty table. -/
def w_open_row : AttendanceRow :=
  { id := 9, org_id := 1, employee_id := 2, session_date := 5, work_mode := "remote",
    clock_in_at := some 300, clock_out_at := none, minutes_worked := 0,
    source := "web", notes := none, created_at := 300, updated_at := 300 }

/-- C2 witness: a clock-in on the empty table leaves at most one row and at
    most one open row per key. -/
theorem clock_in_at_most_one_open_witness :
    (∀ o e d, row_count [w_open_row] o e d ≤ 1) ∧
    (∀ o e d, open_count [w_open_row] o e d ≤ 1) :=
  clock_in_at_most_one_open.1 c1_principal c1_payload [] 5 300 9 [w_open_row] w_open_row
    (fun o e d => by simp [row_count]) rfl

/-- C3: clock-out fails BadRequest "Not clocked in" when no session row for
    (employee, today) exists or its clock_in_at is null, and BadRequest
    "Already clocked out" when the session is already closed; on an open
    session clocked in at t0 it sets minutes_worked = max 0 (floor of the
    elapsed seconds / 60), which is never negative and equals
    floor((now - t0)/60) whenever now is not before t0. -/
theorem clock_out_spec
    (p : Principal) (payload : AttendanceClockOutRequest) (db : List AttendanceRow)
    (today : Nat) (now : Int) (emp : Nat)
    (hemp : p.employee_id = some emp) :
    (find_session db p.org_id emp today = none →
       clock_out p payload db today now = Except.error ⟨400, "Not clocked in"⟩) ∧
    (∀ ex, find_session db p.org_id emp today = some ex → ex.clock_in_at = none →
       clock_out p payload db today now = Except.error ⟨400, "Not clocked in"⟩) ∧
    (∀ ex t0, find_session db p.org_id emp today = some ex →
       ex.clock_in_at = some t0 → ex.clock_out_at ≠ none →
       clock_out p payload db today now = Except.error ⟨400, "Already clocked out"⟩) ∧
    (∀ ex t0, find_session db p.org_id emp today = some ex →
       ex.clock_in_at = some t0 → ex.clock_out_at = none →
       clock_out p payload db today now =
         Except.ok (update_where_id db ex.id
             (clock_out_update payload now (minutes_between t0 now)),
           clock_out_update payload now (minutes_between t0 now) ex) ∧
       (clock_out_update payload now (minutes_between t0 now) ex).minutes_worked =
         minutes_between t0 now ∧
       0 ≤ minutes_between t0 now ∧
       (t0 ≤ now → minutes_between t0 now = (((now - t0).toNat / 60 : Nat) : Int))) := by
  refine ⟨?_, ?_, ?_, ?_⟩
  · intro hfind
    simp [clock_out, _require_employee, hemp, hfind, Except.bind, Bind.bind]
  · intro ex hfind hin
    simp [clock_out, _require_employee, hemp, hfind, hin, Except.bind, Bind.bind]
  · intro ex t0 hfind hin hout
    have houts : ex.clock_out_at.isSome = true := Option.isSome_iff_ne_none.mpr hout
    simp [clock_out, _require_employee, hemp, hfind, hin, houts, Except.bind, Bind.bind]
  · intro ex t0 hfind hin hout
    have houts : ex.clock_out_at.isSome = false := by simp [hout]
    refine ⟨?_, rfl, minutes_between_nonneg t0 now,
      fun h => minutes_between_of_le t0 now h⟩
    simp [clock_out, _require_employee, hemp, hfind, hin, houts, Except.bind, Bind.bind]

/-- Fixture for C3/C10: an open session of employee 2 in org 1 on date 5,
    clocked in at 100. -/
def c3_row : AttendanceRow :=
  { id := 7, org_id := 1, employee_id := 2, session_date := 5, work_mode := "remote",
    clock_in_at := some 100, clock_out_at := none, minutes_worked := 0,
    source := "web", notes := none, created_at := 100, updated_at := 100 }

/-- C3 witness: clock-out at 400 of the session clocked in at 100 succeeds
    with minutes_worked = 5. -/
theorem clock_out_spec_witness :
    clock_out c1_principal ⟨none⟩ [c3_row] 5 400 =
      Except.ok (update_where_id [c3_row] c3_row.id
          (clock_out_update ⟨none⟩ 400 (minutes_between 100 400)),
        clock_out_update ⟨none⟩ 400 (minutes_between 100 400) c3_row) ∧
    (clock_out_update ⟨none⟩ 400 (minutes_between 100 400) c3_row).minutes_worked =
      minutes_between 100 400 ∧
    0 ≤ minutes_between 100 400 ∧
    ((100:Int) ≤ 400 → minutes_between 100 400 = ((((400:Int) - 100).toNat / 60 : Nat) : Int)) :=
  (clock_out_spec c1_principal ⟨none⟩ [c3_row] 5 400 2 rfl).2.2.2 c3_row 100 rfl rfl rfl

/-- C10: a successful clock-out replaces only rows carrying the found
    session's id, the per-row update touches only clock_out_at,
    minutes_worked, notes (kept when the payload has none) and updated_at,
    all other rows and all other fields are unchanged, and the table keeps
    its length. -/
theorem clock_out_frame
    (p : Principal) (payload : AttendanceClockOutRequest) (db : List AttendanceRow)
    (today : Nat) (now : Int) (emp : Nat) (ex : AttendanceRow) (t0 : Int)
    (hemp : p.employee_id = some emp)
    (hfind : find_session db p.org_id emp today = some ex)
    (hin : ex.clock_in_at = some t0)
    (hout : ex.clock_out_at = none) :
    clock_out p payload db today now =
      Except.ok (update_where_id db ex.id
          (clock_out_update payload now (minutes_between t0 now)),
        clock_out_update payload now (minutes_between t0 now) ex) ∧
    (∀ r, r ∈ db → r.id ≠ ex.id →
       r ∈ update_where_id db ex.id (clock_out_update payload now (minutes_between t0 now))) ∧
    (update_where_id db ex.id (clock_out_update payload now (minutes_between t0 now))).length
      = db.length ∧
    (∀ r : AttendanceRow,
       (clock_out_update payload now (minutes_between t0 now) r).id = r.id ∧
       (clock_out_update payload now (minutes_between t0 now) r).org_id = r.org_id ∧
       (clock_out_update payload now (minutes_between t0 now) r).employee_id = r.employee_id ∧
       (clock_out_update payload now (minutes_between t0 now) r).session_date = r.session_date ∧
       (clock_out_update payload now (minutes_between t0 now) r).work_mode = r.work_mode ∧
       (clock_out_update payload now (minutes_between t0 now) r).clock_in_at = r.clock_in_at ∧
       (clock_out_update payload now (minutes_between t0 now) r).source = r.source ∧
       (clock_out_update payload now (minutes_between t0 now) r).created_at = r.created_at) ∧
    (payload.notes = none →
       ∀ r : AttendanceRow,
         (clock_out_update payload now (minutes_between t0 now) r).notes = r.notes) := by
  have houts : ex.clock_out_at.isSome = false := by simp [hout]
  refine ⟨?_, ?_, ?_, ?_, ?_⟩
  · simp [clock_out, _require_employee, hemp, hfind, hin, houts, Except.bind, Bind.bind]
  · intro r hr hne
    unfold update_where_id
    have : (if r.id == ex.id then clock_out_update payload now (minutes_between t0 now) r else r) = r := by
      simp [hne]
    exact this ▸ List.mem_map_of_mem _ hr
  · simp [update_where_id]
  · intro r
    exact ⟨rfl, rfl, rfl, rfl, rfl, rfl, rfl, rfl⟩
  · intro hnotes r
    simp [clock_out_update, coalesce, hnotes]

/-- C10 witness: the frame theorem applied to the open-session fixture. -/
theorem clock_out_frame_witness :
    clock_out c1_principal ⟨none⟩ [c3_row] 5 400 =
      Except.ok (update_where_id [c3_row] c3_row.id
          (clock_out_update ⟨none⟩ 400 (minutes_between 100 400)),
        clock_out_update ⟨none⟩ 400 (minutes_between 100 400) c3_row) ∧
    ((⟨none⟩ : AttendanceClockOutRequest).notes = none →
       ∀ r : AttendanceRow,
         (clock_out_update ⟨none⟩ 400 (minutes_between 100 400) r).notes = r.notes) :=
  let h := clock_out_frame c1_principal ⟨none⟩ [c3_row] 5 400 2 c3_row 100 rfl rfl rfl rfl
  ⟨h.1, h.2.2.2.2⟩

theorem find_leave_request_map_decide (l : List LeaveRequestRow) (orgId lrId : Nat)
    (dec : String) (now : Int) :
    (l.map (fun r => if r.id == lrId then decide_update dec now r else r)).find?
        (fun r => r.org_id == orgId && r.id == lrId) =
      Option.map (fun r => if r.id == lrId then decide_update dec now r else r)
        (l.find? (fun r => r.org_id == orgId && r.id == lrId)) := by
  rw [List.find?_map]
  have hfun : ((fun r : LeaveRequestRow => r.org_id == orgId && r.id == lrId) ∘
      (fun r => if r.id == lrId then decide_update dec now r else r)) =
      (fun r : LeaveRequestRow => r.org_id == orgId && r.id == lrId) := by
    funext r
    cases hid : r.id == lrId <;> simp [Function.comp, decide_update, hid]
  rw [hfun]

/-- C4: a leave decision is NotFound when the request is absent in the
    caller's org, BadRequest when its status is not pending, and on a
    pending request it atomically sets status to the decision and
    decided_at, appends exactly one LeaveApproval row, and afterwards no
    further decision by any same-org principal can succeed on that request
    (the transition happens exactly once). -/
theorem decide_leave_pending_once
    (p : Principal) (lrId : Nat) (payload : LeaveDecisionRequest)
    (store : LeaveStore) (now : Int) (aId : Nat)
    (hdec : payload.decision = "approved" ∨ payload.decision = "rejected") :
    (find_leave_request store p.org_id lrId = none →
       decide_leave p lrId payload store now aId =
         Except.error ⟨404, "Leave request not found"⟩) ∧
    (∀ lr, find_leave_request store p.org_id lrId = some lr → lr.status ≠ "pending" →
       decide_leave p lrId payload store now aId =
         Except.error ⟨400, "Leave request is not pending"⟩) ∧
    (∀ lr a, find_leave_request store p.org_id lrId = some lr → lr.status = "pending" →
       p.employee_id = some a →
       decide_leave p lrId payload store now aId =
         Except.ok ({ store with
             leave_requests := store.leave_requests.map
               (fun r => if r.id == lrId then decide_update payload.decision now r else r)
             leave_approvals := store.leave_approvals ++
               [decide_approval_row p lrId payload now aId a] },
           decide_update payload.decision now lr) ∧
       (decide_update payload.decision now lr).status = payload.decision ∧
       (decide_update payload.decision now lr).decided_at = some now ∧
       (store.leave_approvals ++ [decide_approval_row p lrId payload now aId a]).length =
         store.leave_approvals.length + 1 ∧
       (∀ (q : Principal) (payload2 : LeaveDecisionRequest) (now2 : Int) (aId2 : Nat)
          (res : LeaveStore × LeaveRequestRow), q.org_id = p.org_id →
          decide_leave q lrId payload2
              { store with
                leave_requests := store.leave_requests.map
                  (fun r => if r.id == lrId then decide_update payload.decision now r else r)
                leave_approvals := store.leave_approvals ++
                  [decide_approval_row p lrId payload now aId a] }
              now2 aId2 ≠ Except.ok res)) := by
  have hguard : (payload.decision != "approved" && payload.decision != "rejected") = false := by
    rcases hdec with h | h <;> simp [h]
  refine ⟨?_, ?_, ?_⟩
  · intro hfind
    simp [decide_leave, hguard, hfind]
  · intro lr hfind hst
    have hb : (lr.status != "pending") = true := bne_iff_ne.mpr hst
    simp [decide_leave, hguard, hfind, hb]
  · intro lr a hfind hst hemp
    have hb : (lr.status != "pending") = false := by simp [hst]
    refine ⟨?_, rfl, rfl, by simp, ?_⟩
    · simp [decide_leave, hguard, hfind, hb, hemp]
    · intro q payload2 now2 aId2 res hq hok2
      have hfind0 : store.leave_requests.find?
          (fun r => r.org_id == p.org_id && r.id == lrId) = some lr := hfind
      have hid : lr.id = lrId := by
        have h2 := List.find?_some hfind0
        simp only [Bool.and_eq_true, beq_iff_eq] at h2
        exact h2.2
      by_cases hg2 : (payload2.decision != "approved" && payload2.decision != "rejected") = true
      · simp [decide_leave, hg2] at hok2
      · have hfind2 : find_leave_request
            { store with
              leave_requests := store.leave_requests.map
                (fun r => if r.id == lrId then decide_update payload.decision now r else r)
              leave_approvals := store.leave_approvals ++
                [decide_approval_row p lrId payload now aId a] }
            q.org_id lrId = some (decide_update payload.decision now lr) := by
          unfold find_leave_request
          rw [hq]
          show (store.leave_requests.map
              (fun r => if r.id == lrId then decide_update payload.decision now r else r)).find?
              (fun r => r.org_id == p.org_id && r.id == lrId) =
            some (decide_update payload.decision now lr)
          rw [find_leave_request_map_decide store.leave_requests p.org_id lrId
            payload.decision now, hfind0]
          simp [hid]
        have hstat2 : ((decide_update payload.decision now lr).status != "pending") = true := by
          rcases hdec with h | h <;> simp [decide_update, h]
        rw [Bool.not_eq_true] at hg2
        simp only [decide_leave, hg2, Bool.false_eq_true, if_false, hfind2, hstat2,
          if_true] at hok2
        exact Except.noConfusion hok2

/-- Fixture for C4/C9: a pending leave request of employee 2 in org 1. -/
def c4_lr : LeaveRequestRow :=
  { id := 3, org_id := 1, employee_id := 2, leave_type_id := 4, start_date := 10,
    end_date := 12, unit := "day", quantity := 3, reason := none, status := "pending",
    requested_at := 50, decided_at := none, created_at := 50, updated_at := 50 }

/-- Fixture: a leave store holding only the pending request. -/
def c4_store : LeaveStore :=
  { leave_types := [{ id := 4, org_id := 1, requires_approval := true }],
    leave_requests := [c4_lr],
    leave_approvals := [] }

/-- C4 witness: approving the pending fixture request succeeds, flips the
    status, and appends one approval row. -/
theorem decide_leave_pending_once_witness :
    decide_leave c1_principal 3 ⟨"approved", none⟩ c4_store 60 8 =
      Except.ok ({ c4_store with
          leave_requests := c4_store.leave_requests.map
            (fun r => if r.id == 3 then decide_update "approved" 60 r else r)
          leave_approvals := c4_store.leave_approvals ++
            [decide_approval_row c1_principal 3 ⟨"approved", none⟩ 60 8 2] },
        decide_update "approved" 60 c4_lr) ∧
    (decide_update "approved" 60 c4_lr).status = "approved" ∧
    (decide_update "approved" 60 c4_lr).decided_at = some 60 ∧
    (c4_store.leave_approvals ++
      [decide_approval_row c1_principal 3 ⟨"approved", none⟩ 60 8 2]).length =
      c4_store.leave_approvals.length + 1 :=
  let h := (decide_leave_pending_once c1_principal 3 ⟨"approved", none⟩ c4_store 60 8
    (Or.inl rfl)).2.2 c4_lr 2 rfl rfl rfl
  ⟨h.1, h.2.1, h.2.2.1, h.2.2.2.1⟩

/-- C9: a leave application whose end_date is strictly before start_date
    fails BadRequest before any storage access: the store is returned
    unchanged and the list of performed storage operations is empty (the
    same holds for the earlier employee-mapping failure). -/
theorem apply_leave_invalid_range_no_storage
    (p : Principal) (payload : LeaveApplyRequest) (store : LeaveStore)
    (now : Int) (newId : Nat)
    (hrange : payload.end_date < payload.start_date) :
    (∀ e, p.employee_id = some e →
       apply_leave p payload store now newId =
         (Except.error ⟨400, "Invalid date range"⟩, store, [])) ∧
    (p.employee_id = none →
       apply_leave p payload store now newId =
         (Except.error ⟨400, "User has no employee mapping"⟩, store, [])) := by
  constructor
  · intro e he
    simp [apply_leave, _require_employee, he, hrange]
  · intro he
    simp [apply_leave, _require_employee, he]

/-- C9 witness: an application with end_date 9 before start_date 10 fails
    with Invalid date range, unchanged store, no storage operations. -/
theorem apply_leave_invalid_range_witness :
    apply_leave c1_principal ⟨4, 10, 9, "day", 1, none⟩ c4_store 60 11 =
      (Except.error ⟨400, "Invalid date range"⟩, c4_store, []) :=
  (apply_leave_invalid_range_no_storage c1_principal ⟨4, 10, 9, "day", 1, none⟩
    c4_store 60 11 (by decide)).1 2 rfl

/-- C5: every row any of the five org-scoped list endpoints returns carries
    the requesting principal's org_id — rows of other orgs are excluded by
    the org_id filter of each query, regardless of limit, offset, date or
    id filters. -/
theorem org_scoped_lists :
    (∀ (p : Principal) (limit offset : Nat) (employees : List EmployeeRow) (r : EmployeeRow),
       r ∈ list_employees p limit offset employees → r.org_id = p.org_id) ∧
    (∀ (p : Principal) (s e : Nat) (ef : Option Nat) (db : List AttendanceRow)
       (rows : List AttendanceRow) (r : AttendanceRow),
       list_sessions p s e ef db = Except.ok rows → r ∈ rows → r.org_id = p.org_id) ∧
    (∀ (p : Principal) (sf : Option String) (ef : Option Nat) (store : LeaveStore)
       (r : LeaveRequestRow),
       r ∈ list_leave_requests p sf ef store → r.org_id = p.org_id) ∧
    (∀ (p : Principal) (limit : Nat) (logs : List AuditLogRow) (r : AuditLogRow),
       r ∈ list_audit_logs p limit logs → r.org_id = p.org_id) ∧
    (∀ (p : Principal) (cycles : List PayrollCycleRow) (r : PayrollCycleRow),
       r ∈ list_payroll_cycles p cycles → r.org_id = p.org_id) := by
  refine ⟨?_, ?_, ?_, ?_, ?_⟩
  · intro p limit offset employees r hr
    have hp := pred_of_mem_sorted_drop_take _ _ employees limit offset r hr
    exact beq_iff_eq.mp hp
  · intro p s e ef db rows r hok hr
    by_cases hrange : e < s
    · simp [list_sessions, hrange] at hok
    · simp only [list_sessions, if_neg hrange, Except.ok.injEq] at hok
      rw [← hok] at hr
      have hp := pred_of_mem_sorted_take _ _ db 500 r hr
      simp only [Bool.and_eq_true, beq_iff_eq] at hp
      exact hp.1.1.1
  · intro p sf ef store r hr
    have hp := pred_of_mem_sorted_take _ _ store.leave_requests 500 r hr
    simp only [Bool.and_eq_true, beq_iff_eq] at hp
    exact hp.1.1
  · intro p limit logs r hr
    have hp := pred_of_mem_sorted_take _ _ logs limit r hr
    exact beq_iff_eq.mp hp
  · intro p cycles r hr
    have hp := pred_of_mem_sorted_take _ _ cycles 200 r hr
    exact beq_iff_eq.mp hp

/-- Fixture: one employee row of org 1. -/
def w_emp : EmployeeRow :=
  { id := 1, org_id := 1, user_id := none, employee_code := "E1", first_name := "A",
    last_name := "B", work_email := "a@x", phone := none, job_title := none,
    department := none, location := none, employment_type := "full_time",
    status := "active", date_of_joining := none, manager_employee_id := none,
    created_at := 0, updated_at := 0 }

/-- C5 witness: the employee listing part applied to a one-row table. -/
theorem org_scoped_lists_witness : w_emp.org_id = c1_principal.org_id :=
  org_scoped_lists.1 c1_principal 50 0 [w_emp] w_emp (by decide)

/-- C6: once the org slug resolves, all three login failure causes — no user
    with that (org, lowercased email), an inactive user, and an active user
    with a failing password check — yield the identical Unauthorized error
    with detail "Invalid credentials". -/
theorem login_uniform_invalid_credentials
    (verify : String → String → Bool) (makeA makeR : Nat → Nat → String)
    (orgs : List OrgRow) (users : List UserRow) (payload : LoginRequest)
    (now : Int) (org : OrgRow)
    (horg : orgs.find? (fun o => o.slug == payload.org_slug) = some org) :
    (users.find? (fun u => u.org_id == org.id &&
        u.email.toLower == payload.email.toLower) = none →
       login verify makeA makeR orgs users payload now =
         Except.error ⟨401, "Invalid credentials"⟩) ∧
    (∀ u, users.find? (fun u2 => u2.org_id == org.id &&
        u2.email.toLower == payload.email.toLower) = some u → u.is_active = false →
       login verify makeA makeR orgs users payload now =
         Except.error ⟨401, "Invalid credentials"⟩) ∧
    (∀ u, users.find? (fun u2 => u2.org_id == org.id &&
        u2.email.toLower == payload.email.toLower) = some u → u.is_active = true →
       verify payload.password u.password_hash = false →
       login verify makeA makeR orgs users payload now =
         Except.error ⟨401, "Invalid credentials"⟩) := by
  refine ⟨?_, ?_, ?_⟩
  · intro hfind
    simp [login, horg, hfind]
  · intro u hfind hact
    simp [login, horg, hfind, hact]
  · intro u hfind hact hv
    simp [login, horg, hfind, hact, hv]

/-- Fixture: the org the login witness resolves. -/
def c6_org : OrgRow := { id := 1, slug := "acme" }

/-- C6 witness: a login against an org with no users fails with the uniform
    Invalid credentials error. -/
theorem login_uniform_witness :
    login (fun _ _ => false) (fun _ _ => "a") (fun _ _ => "r") [c6_org] []
      ⟨"acme", "a@x.com", "pw"⟩ 0 = Except.error ⟨401, "Invalid credentials"⟩ :=
  (login_uniform_invalid_credentials (fun _ _ => false) (fun _ _ => "a")
    (fun _ _ => "r") [c6_org] [] ⟨"acme", "a@x.com", "pw"⟩ 0 c6_org rfl).1 rfl

/-- C7: the permission gate accepts a principal exactly when every required
    key is held (AND semantics, independent of extra permissions), and on
    rejection returns Forbidden whose detail lists exactly the required keys
    the principal is missing. -/
theorem require_permissions_spec (required : List String) (p : Principal) :
    (require_permissions required p = Except.ok p ↔ ∀ k ∈ required, k ∈ p.permissions) ∧
    ((¬ ∀ k ∈ required, k ∈ p.permissions) →
       require_permissions required p =
         Except.error ⟨403, "Missing permissions: " ++ String.intercalate ", "
           (required.filter (fun k => !(p.permissions.contains k)))⟩) ∧
    (∀ k, k ∈ required.filter (fun k2 => !(p.permissions.contains k2)) ↔
       (k ∈ required ∧ k ∉ p.permissions)) := by
  have hchar : ∀ k, k ∈ required.filter (fun k2 => !(p.permissions.contains k2)) ↔
      (k ∈ required ∧ k ∉ p.permissions) := by
    intro k
    simp [List.mem_filter]
  have hempty : required.filter (fun k2 => !(p.permissions.contains k2)) = [] ↔
      ∀ k ∈ required, k ∈ p.permissions := by
    constructor
    · intro h k hk
      by_contra hnk
      have hmem := (hchar k).mpr ⟨hk, hnk⟩
      rw [h] at hmem
      exact absurd hmem (List.not_mem_nil k)
    · intro h
      rw [List.eq_nil_iff_forall_not_mem]
      intro k hkmem
      obtain ⟨h1, h2⟩ := (hchar k).mp hkmem
      exact h2 (h k h1)
  have herr : required.filter (fun k2 => !(p.permissions.contains k2)) ≠ [] →
      require_permissions required p =
        Except.error ⟨403, "Missing permissions: " ++ String.intercalate ", "
          (required.filter (fun k => !(p.permissions.contains k)))⟩ := by
    intro hm
    have hcond : (required.filter (fun k2 => !(p.permissions.contains k2)) != []) = true :=
      bne_iff_ne.mpr hm
    simp only [require_permissions]
    rw [if_pos hcond]
  have hok_eq : required.filter (fun k2 => !(p.permissions.contains k2)) = [] →
      require_permissions required p = Except.ok p := by
    intro h
    simp only [require_permissions]
    rw [h]
    simp
  refine ⟨?_, ?_, hchar⟩
  · constructor
    · intro hok k hk
      by_contra hnk
      have hm : required.filter (fun k2 => !(p.permissions.contains k2)) ≠ [] := by
        intro h0
        have hmem := (hchar k).mpr ⟨hk, hnk⟩
        rw [h0] at hmem
        exact absurd hmem (List.not_mem_nil k)
      rw [herr hm] at hok
      exact Except.noConfusion hok
    · intro hall
      exact hok_eq (hempty.mpr hall)
  · intro hnall
    exact herr (fun h => hnall (hempty.mp h))

/-- Fixture: a principal holding only permission y. -/
def c7_principal : Principal :=
  { user_id := 1, org_id := 1, roles := [], permissions := ["y"], employee_id := none }

/-- C7 witness: requiring x of a principal holding only y is rejected with
    the missing key listed. -/
theorem require_permissions_witness :
    require_permissions ["x"] c7_principal =
      Except.error ⟨403, "Missing permissions: " ++ String.intercalate ", "
        (["x"].filter (fun k => !(c7_principal.permissions.contains k)))⟩ :=
  (require_permissions_spec ["x"] c7_principal).2.1 (by decide)

/-- C8: a decoded token whose type claim differs from access (a refresh
    token, or a token with no type claim at all) is rejected by the
    principal resolver with Unauthorized and never yields a Principal. -/
theorem non_access_token_rejected (claims : TokenClaims) (db : AuthDb)
    (h : claims.type ≠ some "access") :
    get_current_principal (Except.ok claims) db =
      Except.error ⟨401, "Invalid access token"⟩ := by
  have hb : (claims.type != some "access") = true := bne_iff_ne.mpr h
  simp [get_current_principal, hb]

/-- C8 witness: a refresh-typed token is rejected. -/
theorem non_access_token_rejected_witness :
    get_current_principal (Except.ok ⟨some "refresh", some 1, some 1⟩)
      ⟨[], [], [], [], [], []⟩ = Except.error ⟨401, "Invalid access token"⟩ :=
  non_access_token_rejected ⟨some "refresh", some 1, some 1⟩ ⟨[], [], [], [], [], []⟩
    (by decide)

end HRMS
